import Mathlib

/-!
Verification development for the payment-to-identity reconciliation
subsystem (the user controllers module: `updateAfterPayment`,
`checkSubscriptionStatus`, `getUsers`, `getUser`, `handleStripeWebhook`,
`fetchSessionData`, `updateUserStatus`, `updateUserAfterPayment`,
`checkUserStatus`).

The embedding models:
  - the Prisma user table as a list of records (`Store`);
  - `findUnique` as `List.find?` on the unique key (`cognitoId` or `email`);
  - `update` as a map over the matching records, with the Prisma semantics
    that an `undefined` field in the `data` object leaves the column
    unchanged, and that `update` on a missing record throws (caught by the
    handler's `catch` block);
  - `create` as an append guarded by the unique-key constraints implied by
    the `findUnique` calls (`cognitoId` and `email` are unique); a
    conflicting create throws, caught by the handler's `catch` block
    (surfaced as HTTP 500);
  - the Stripe client as explicit function parameters (`retrieve` for
    `checkout.sessions.retrieve`, which returns `none` when the call
    throws or the session does not exist);
  - webhook signature verification (`stripe.webhooks.constructEvent`) as a
    boolean input checked before the event payload is inspected, matching
    the source's order of operations;
  - each handler's HTTP response as a `Response` value, its `console.*`
    output as a `List String` log, and the store operations it issues as a
    `List StoreOp` trace.

JavaScript falsiness of request fields (`!sessionId` etc.) is modelled by
treating the empty string as an absent value; genuinely optional fields
are `Option String`.
-/

namespace MyPlatt

/-- A row of the Prisma `user` table, with the fields this module touches.
`cognitoId` and `email` are the two unique keys (`findUnique` is called on
both); `cognitoId` is absent on records created by the email-keyed path. -/
structure UserRecord where
  cognitoId : Option String
  email : String
  username : String
  firstName : String
  lastName : String
  profilePictureUrl : Option String
  subscriptionStatus : String
deriving Repr, DecidableEq

/-- The durable user store: the rows of the user table. -/
abbrev Store := List UserRecord

/-- A Stripe checkout session as this module reads it: `payment_status`,
`client_reference_id`, and `customer_details?.email`. -/
structure Session where
  payment_status : String
  client_reference_id : Option String
  customer_email : Option String
deriving Repr, DecidableEq

/-- A webhook event as this module reads it after `constructEvent`:
its `type` and the payload's `customer_details?.email`. -/
structure WebhookEvent where
  type : String
  customer_email : Option String
deriving Repr, DecidableEq

/-- Request body of `updateAfterPayment`
(`{sessionId, firstName, lastName, profilePictureUrl}`). -/
structure UpdateBody where
  sessionId : String
  firstName : String
  lastName : String
  profilePictureUrl : Option String
deriving Repr, DecidableEq

/-- Request body of `updateUserAfterPayment`
(`{sessionId, firstName, lastName, profilePictureUrl, username}`). -/
structure UpdateBody2 where
  sessionId : String
  firstName : String
  lastName : String
  profilePictureUrl : Option String
  username : String
deriving Repr, DecidableEq

/-- Request body of `updateUserStatus` (`{cognitoId, status}`). -/
structure StatusBody where
  cognitoId : String
  status : String
deriving Repr, DecidableEq

/-- The distinct HTTP responses the handlers produce. -/
inductive Response where
  | missingFields
  | invalidOrUnpaid
  | cognitoIdNotFound
  | okUser (u : UserRecord)
  | internalError
  | received
  | webhookError
  | sessionIdRequired
  | sessionData (cognitoId : String)
  | missingCognitoOrStatus
  | statusUpdated (u : UserRecord)
  | emailNotFound
  | hasSubscription (b : Bool)
  | subscriptionStatusOf (s : String)
  | userNotFound
  | userJson (u : Option UserRecord)
deriving Repr, DecidableEq

/-- HTTP status code of each response. -/
def Response.status : Response → Nat
  | .missingFields => 400
  | .invalidOrUnpaid => 400
  | .cognitoIdNotFound => 400
  | .okUser _ => 200
  | .internalError => 500
  | .received => 200
  | .webhookError => 400
  | .sessionIdRequired => 400
  | .sessionData _ => 200
  | .missingCognitoOrStatus => 400
  | .statusUpdated _ => 200
  | .emailNotFound => 400
  | .hasSubscription _ => 200
  | .subscriptionStatusOf _ => 200
  | .userNotFound => 404
  | .userJson _ => 200

/-- A primitive operation issued against the user store. -/
inductive StoreOp where
  | readByCognito (c : String)
  | readByEmail (e : String)
  | writeCreate (r : UserRecord)
  | writeUpdateByCognito (c : String)
  | writeUpdateByEmail (e : String)
deriving Repr, DecidableEq

/-- Whether a store operation writes. -/
def StoreOp.isWrite : StoreOp → Bool
  | .writeCreate _ => true
  | .writeUpdateByCognito _ => true
  | .writeUpdateByEmail _ => true
  | _ => false

/-- Whether a store operation is a lookup by email. -/
def StoreOp.isEmailRead : StoreOp → Bool
  | .readByEmail _ => true
  | _ => false

/-- Result of running a handler: the HTTP response, the store afterwards,
the store operations issued, and the `console.*` log lines emitted. -/
structure HandlerOut where
  resp : Response
  store : Store
  ops : List StoreOp
  log : List String
deriving Repr, DecidableEq

/-- `prisma.user.findUnique({ where: { cognitoId } })`. -/
def findByCognito (s : Store) (c : String) : Option UserRecord :=
  s.find? (fun r => decide (r.cognitoId = some c))

/-- `prisma.user.findUnique({ where: { email } })`. -/
def findByEmail (s : Store) (e : String) : Option UserRecord :=
  s.find? (fun r => decide (r.email = e))

/-- Number of records keyed by a given `cognitoId`. -/
def countByCognito (s : Store) (c : String) : Nat :=
  (s.filter (fun r => decide (r.cognitoId = some c))).length

/-- Prisma `data` field semantics: a present (`some`) value overwrites,
an `undefined` (`none`) value leaves the column unchanged. -/
def prismaSet (new old : Option String) : Option String :=
  match new with
  | some v => some v
  | none => old

/-- The row update performed by `updateAfterPayment`'s `prisma.user.update`:
`{ firstName, lastName, profilePictureUrl, subscriptionStatus: 'active' }`. -/
def applyPaymentUpdate (b : UpdateBody) (r : UserRecord) : UserRecord :=
  { r with
    firstName := b.firstName
    lastName := b.lastName
    profilePictureUrl := prismaSet b.profilePictureUrl r.profilePictureUrl
    subscriptionStatus := "active" }

/-- The row update performed by `updateUserAfterPayment`'s
`prisma.user.update` (same `data` object). -/
def applyPaymentUpdate2 (b : UpdateBody2) (r : UserRecord) : UserRecord :=
  { r with
    firstName := b.firstName
    lastName := b.lastName
    profilePictureUrl := prismaSet b.profilePictureUrl r.profilePictureUrl
    subscriptionStatus := "active" }

/-- `prisma.user.update({ where: { cognitoId }, data: f })` once the record
is known to exist: rewrite the matching row(s). -/
def updateWhereCognito (s : Store) (c : String) (f : UserRecord → UserRecord) :
    Store :=
  s.map (fun r => if r.cognitoId = some c then f r else r)

/-- `prisma.user.update({ where: { email }, data: f })` once the record is
known to exist: rewrite the matching row(s). -/
def updateWhereEmail (s : Store) (e : String) (f : UserRecord → UserRecord) :
    Store :=
  s.map (fun r => if r.email = e then f r else r)

/-- `prisma.user.create`: append the row unless a unique-key constraint
(`cognitoId` when present, or `email`) is violated, in which case the call
throws (`none`). -/
def dbCreate (s : Store) (r : UserRecord) : Option Store :=
  if s.any (fun q =>
      (r.cognitoId.isSome && decide (q.cognitoId = r.cognitoId)) ||
      decide (q.email = r.email)) then
    none
  else
    some (s ++ [r])

/-- The record created by `updateAfterPayment` when no user with the
session's `client_reference_id` exists: the username and email are
synthesized (`user_${cognitoId}`, `${cognitoId}@example.com`). -/
def newUserFromPayment (c : String) (b : UpdateBody) : UserRecord :=
  { cognitoId := some c
    email := c ++ "@example.com"
    username := "user_" ++ c
    firstName := b.firstName
    lastName := b.lastName
    profilePictureUrl := b.profilePictureUrl
    subscriptionStatus := "active" }

/-- The record created by `updateUserAfterPayment` when no user with the
session's customer email exists: all fields from the request body plus the
session email; no `cognitoId`. -/
def newUserFromEmail (e : String) (b : UpdateBody2) : UserRecord :=
  { cognitoId := none
    email := e
    username := b.username
    firstName := b.firstName
    lastName := b.lastName
    profilePictureUrl := b.profilePictureUrl
    subscriptionStatus := "active" }

/-- `updateAfterPayment`: validate body, verify the session with Stripe
(`verifyStripeSession` returns null on any retrieval error, giving the 400
branch), require `payment_status === 'paid'`, require a non-falsy
`client_reference_id`, then find-by-cognitoId and update or create. -/
def updateAfterPayment (retrieve : String → Option Session) (b : UpdateBody)
    (s : Store) : HandlerOut :=
  if b.sessionId = "" ∨ b.firstName = "" ∨ b.lastName = "" then
    ⟨.missingFields, s, [], []⟩
  else
    match retrieve b.sessionId with
    | none => ⟨.invalidOrUnpaid, s, [], ["Stripe session retrieval failed:"]⟩
    | some sess =>
      if sess.payment_status ≠ "paid" then
        ⟨.invalidOrUnpaid, s, [], []⟩
      else
        match sess.client_reference_id with
        | none => ⟨.cognitoIdNotFound, s, [], []⟩
        | some c =>
          if c = "" then ⟨.cognitoIdNotFound, s, [], []⟩
          else
            match findByCognito s c with
            | some u =>
              ⟨.okUser (applyPaymentUpdate b u),
                updateWhereCognito s c (applyPaymentUpdate b),
                [.readByCognito c, .writeUpdateByCognito c], []⟩
            | none =>
              match dbCreate s (newUserFromPayment c b) with
              | some s2 =>
                ⟨.okUser (newUserFromPayment c b), s2,
                  [.readByCognito c, .writeCreate (newUserFromPayment c b)],
                  []⟩
              | none =>
                ⟨.internalError, s, [.readByCognito c],
                  ["Error updating user:"]⟩

/-- `handleStripeWebhook`: `constructEvent` verifies the signature before
the payload is interpreted (failure throws, caught as a 400 `Webhook
Error`); on a `checkout.session.completed` event with a customer email the
user with that email is set `active` (`prisma.user.update` throws when no
such user exists, also caught as the 400 `Webhook Error`); every other
authenticated event is acknowledged with `200 {received:true}`. -/
def handleStripeWebhook (sigOk : Bool) (ev : WebhookEvent) (s : Store) :
    HandlerOut :=
  if !sigOk then
    ⟨.webhookError, s, [], ["Webhook error:"]⟩
  else if ev.type = "checkout.session.completed" then
    match ev.customer_email with
    | some e =>
      match findByEmail s e with
      | some _ =>
        ⟨.received,
          updateWhereEmail s e (fun r => { r with subscriptionStatus := "active" }),
          [.writeUpdateByEmail e],
          ["User subscription status updated to active."]⟩
      | none => ⟨.webhookError, s, [], ["Webhook error:"]⟩
    | none => ⟨.received, s, [], []⟩
  else
    ⟨.received, s, [], []⟩

/-- `updateUserStatus`: validate body, then `prisma.user.update` setting
`subscriptionStatus` to the caller-supplied `status` (a missing record
makes the update throw, caught as a 500). -/
def updateUserStatus (b : StatusBody) (s : Store) : HandlerOut :=
  if b.cognitoId = "" ∨ b.status = "" then
    ⟨.missingCognitoOrStatus, s, [], []⟩
  else
    match findByCognito s b.cognitoId with
    | some u =>
      ⟨.statusUpdated { u with subscriptionStatus := b.status },
        updateWhereCognito s b.cognitoId
          (fun r => { r with subscriptionStatus := b.status }),
        [.writeUpdateByCognito b.cognitoId], []⟩
    | none => ⟨.internalError, s, [], ["Error updating user status:"]⟩

/-- `updateUserAfterPayment`: validate body (username required here),
retrieve the session (a raw `stripe.checkout.sessions.retrieve`, whose
failure is caught as a 500), require a customer email — but perform NO
payment-status check — then find-by-email and update or create. -/
def updateUserAfterPayment (retrieve : String → Option Session)
    (b : UpdateBody2) (s : Store) : HandlerOut :=
  if b.sessionId = "" ∨ b.firstName = "" ∨ b.lastName = "" ∨ b.username = "" then
    ⟨.missingFields, s, [], []⟩
  else
    match retrieve b.sessionId with
    | none => ⟨.internalError, s, [], ["Error updating user after payment:"]⟩
    | some sess =>
      match sess.customer_email with
      | none => ⟨.emailNotFound, s, [], []⟩
      | some e =>
        if e = "" then ⟨.emailNotFound, s, [], []⟩
        else
          match findByEmail s e with
          | some u =>
            ⟨.okUser (applyPaymentUpdate2 b u),
              updateWhereEmail s e (applyPaymentUpdate2 b),
              [.readByEmail e, .writeUpdateByEmail e], []⟩
          | none =>
            match dbCreate s (newUserFromEmail e b) with
            | some s2 =>
              ⟨.okUser (newUserFromEmail e b), s2,
                [.readByEmail e, .writeCreate (newUserFromEmail e b)], []⟩
            | none =>
              ⟨.internalError, s, [.readByEmail e],
                ["Error updating user after payment:"]⟩

/-- `fetchSessionData`: require a `session_id` query parameter, retrieve
the session (failure caught as 500), and return its
`client_reference_id` (400 when falsy). -/
def fetchSessionData (retrieve : String → Option Session)
    (sessionId : String) (s : Store) : HandlerOut :=
  if sessionId = "" then
    ⟨.sessionIdRequired, s, [], []⟩
  else
    match retrieve sessionId with
    | none => ⟨.internalError, s, [], ["Error fetching session data:"]⟩
    | some sess =>
      match sess.client_reference_id with
      | none => ⟨.cognitoIdNotFound, s, [], []⟩
      | some c =>
        if c = "" then ⟨.cognitoIdNotFound, s, [], []⟩
        else ⟨.sessionData c, s, [], []⟩

/-- The Stripe customer/subscription listing surface used by
`checkSubscriptionStatus`; `none` models a thrown call. -/
structure StripeWorld where
  listCustomers : String → Option (List String)
  listSubscriptions : String → Option Nat
deriving Inhabited

/-- `checkSubscriptionStatus`: list customers by email, then active
subscriptions of the first customer; never touches the user store. -/
def checkSubscriptionStatus (w : StripeWorld) (email : String) (s : Store) :
    HandlerOut :=
  match w.listCustomers email with
  | none => ⟨.internalError, s, [], ["Error checking subscription status:"]⟩
  | some [] => ⟨.hasSubscription false, s, [], []⟩
  | some (cid :: _) =>
    match w.listSubscriptions cid with
    | none => ⟨.internalError, s, [], ["Error checking subscription status:"]⟩
    | some n => ⟨.hasSubscription (decide (0 < n)), s, [], []⟩

/-- `checkUserStatus`: find-by-email and report the subscription status,
404 when no such user. -/
def checkUserStatus (email : String) (s : Store) : HandlerOut :=
  match findByEmail s email with
  | some u => ⟨.subscriptionStatusOf u.subscriptionStatus, s,
      [.readByEmail email], []⟩
  | none => ⟨.userNotFound, s, [.readByEmail email], []⟩

/-- `getUser`: find-by-cognitoId and return the record (or JSON null). -/
def getUser (cognitoId : String) (s : Store) : HandlerOut :=
  ⟨.userJson (findByCognito s cognitoId), s, [.readByCognito cognitoId], []⟩

/-! ## Store-shape lemmas

Each mutating handler leaves the store alone, rewrites rows in place
(a `map`), or appends a freshly created row. These shapes drive the
monotonic-activation and idempotence proofs. -/

/-- Monotonic activation between an input store and an output store:
no row shrinks away, and every row that was `active` is still `active`
at the same position. -/
def MonoActive (s t : Store) : Prop :=
  s.length ≤ t.length ∧
  ∀ i (h : i < s.length) (h2 : i < t.length),
    (s[i]).subscriptionStatus = "active" →
    (t[i]).subscriptionStatus = "active"

theorem monoActive_refl (s : Store) : MonoActive s s :=
  ⟨Nat.le_refl _, fun _ _ _ ha => ha⟩

theorem monoActive_append (s t : Store) : MonoActive s (s ++ t) :=
  ⟨by simp, fun i h h2 ha => by rwa [List.getElem_append_left h]⟩

theorem monoActive_map (s : Store) (g : UserRecord → UserRecord)
    (hg : ∀ r, g r = r ∨ (g r).subscriptionStatus = "active") :
    MonoActive s (s.map g) := by
  refine ⟨by simp, fun i h h2 ha => ?_⟩
  rw [List.getElem_map]
  rcases hg s[i] with h3 | h3
  · rwa [h3]
  · exact h3

/-- `dbCreate` either throws or appends the new row. -/
theorem dbCreate_eq_append {s : Store} {r : UserRecord} {t : Store}
    (h : dbCreate s r = some t) : t = s ++ [r] := by
  unfold dbCreate at h
  split at h
  · exact absurd h (by simp)
  · exact (Option.some.injEq _ _).mp h |>.symm

/-- The store after `updateAfterPayment` is the input store, an in-place
rewrite of the rows keyed by the session's `client_reference_id`, or the
input store with one `active` row appended. -/
theorem updateAfterPayment_store_shape (retrieve : String → Option Session)
    (b : UpdateBody) (s : Store) :
    (updateAfterPayment retrieve b s).store = s ∨
    (∃ c, (updateAfterPayment retrieve b s).store =
      updateWhereCognito s c (applyPaymentUpdate b)) ∨
    (∃ r, (updateAfterPayment retrieve b s).store = s ++ [r] ∧
      r.subscriptionStatus = "active") := by
  unfold updateAfterPayment
  split
  · exact Or.inl rfl
  split
  · exact Or.inl rfl
  split
  · exact Or.inl rfl
  split
  · exact Or.inl rfl
  split
  · exact Or.inl rfl
  split
  · exact Or.inr (Or.inl ⟨_, rfl⟩)
  split
  · rename_i hdb
    exact Or.inr (Or.inr ⟨_, dbCreate_eq_append hdb, rfl⟩)
  · exact Or.inl rfl

/-- The store after `updateUserAfterPayment` is the input store, an
in-place rewrite of the rows keyed by the session's customer email, or the
input store with one `active` row appended. -/
theorem updateUserAfterPayment_store_shape
    (retrieve : String → Option Session) (b : UpdateBody2) (s : Store) :
    (updateUserAfterPayment retrieve b s).store = s ∨
    (∃ e, (updateUserAfterPayment retrieve b s).store =
      updateWhereEmail s e (applyPaymentUpdate2 b)) ∨
    (∃ r, (updateUserAfterPayment retrieve b s).store = s ++ [r] ∧
      r.subscriptionStatus = "active") := by
  unfold updateUserAfterPayment
  split
  · exact Or.inl rfl
  split
  · exact Or.inl rfl
  split
  · exact Or.inl rfl
  split
  · exact Or.inl rfl
  split
  · exact Or.inr (Or.inl ⟨_, rfl⟩)
  split
  · rename_i hdb
    exact Or.inr (Or.inr ⟨_, dbCreate_eq_append hdb, rfl⟩)
  · exact Or.inl rfl

/-- The store after `handleStripeWebhook` is the input store or an
in-place rewrite that only sets `subscriptionStatus := "active"`. -/
theorem handleStripeWebhook_store_shape (sigOk : Bool) (ev : WebhookEvent)
    (s : Store) :
    (handleStripeWebhook sigOk ev s).store = s ∨
    (∃ e, (handleStripeWebhook sigOk ev s).store =
      updateWhereEmail s e (fun r => { r with subscriptionStatus := "active" })) := by
  unfold handleStripeWebhook
  split
  · exact Or.inl rfl
  split
  · split
    · split
      · exact Or.inr ⟨_, rfl⟩
      · exact Or.inl rfl
    · exact Or.inl rfl
  · exact Or.inl rfl

/-! ## C1 — monotonic activation -/

/-- Claim C1 is false on the code: `updateUserStatus` writes the
caller-supplied status verbatim, so it downgrades an `active` record to
`inactive`. Concretely, a store holding one active user keyed `u1`, after
`updateUserStatus {cognitoId: "u1", status: "inactive"}`, holds that record
with status `inactive`, violating monotonic activation. -/
theorem updateUserStatus_downgrades_active :
    (updateUserStatus ⟨"u1", "inactive"⟩
        [⟨some "u1", "u1@x.com", "ada", "Ada", "Lovelace", none, "active"⟩]).store =
      [⟨some "u1", "u1@x.com", "ada", "Ada", "Lovelace", none, "inactive"⟩] ∧
    ¬ MonoActive
      [⟨some "u1", "u1@x.com", "ada", "Ada", "Lovelace", none, "active"⟩]
      (updateUserStatus ⟨"u1", "inactive"⟩
        [⟨some "u1", "u1@x.com", "ada", "Ada", "Lovelace", none, "active"⟩]).store := by
  constructor
  · rfl
  · intro hm
    exact absurd (hm.2 0 (by decide) (by decide) rfl) (by decide)

/-- Claim C1 (amended): the two reconciliation handlers and the webhook
handler never downgrade an active record — every status they write is
`active`, so their store transitions are monotone; the separate
`updateUserStatus` endpoint, however, sets whatever status the caller
supplies and is not monotone. -/
theorem reconciliation_monotonic_activation
    (retrieve : String → Option Session) (b : UpdateBody) (b2 : UpdateBody2)
    (sigOk : Bool) (ev : WebhookEvent) (s : Store) :
    MonoActive s (updateAfterPayment retrieve b s).store ∧
    MonoActive s (updateUserAfterPayment retrieve b2 s).store ∧
    MonoActive s (handleStripeWebhook sigOk ev s).store := by
  refine ⟨?_, ?_, ?_⟩
  · rcases updateAfterPayment_store_shape retrieve b s with h | ⟨c, h⟩ | ⟨r, h, _⟩
    · rw [h]; exact monoActive_refl s
    · rw [h]
      simp only [updateWhereCognito]
      refine monoActive_map s _ (fun r => ?_)
      by_cases hc : r.cognitoId = some c
      · right; simp [hc, applyPaymentUpdate]
      · left; simp [hc]
    · rw [h]; exact monoActive_append s [r]
  · rcases updateUserAfterPayment_store_shape retrieve b2 s with h | ⟨e, h⟩ | ⟨r, h, _⟩
    · rw [h]; exact monoActive_refl s
    · rw [h]
      simp only [updateWhereEmail]
      refine monoActive_map s _ (fun r => ?_)
      by_cases he : r.email = e
      · right; simp [he, applyPaymentUpdate2]
      · left; simp [he]
    · rw [h]; exact monoActive_append s [r]
  · rcases handleStripeWebhook_store_shape sigOk ev s with h | ⟨e, h⟩
    · rw [h]; exact monoActive_refl s
    · rw [h]
      simp only [updateWhereEmail]
      refine monoActive_map s _ (fun r => ?_)
      by_cases he : r.email = e
      · right; simp [he]
      · left; simp [he]

/-! ## C4 — fail-closed webhook -/

/-- Claim C4: a webhook delivery whose signature fails verification is
rejected with HTTP 400 and the user store is left completely unchanged —
no store operation is issued — regardless of what the payload contains. -/
theorem webhook_fail_closed (ev : WebhookEvent) (s : Store) :
    handleStripeWebhook false ev s = ⟨.webhookError, s, [], ["Webhook error:"]⟩ ∧
    (handleStripeWebhook false ev s).store = s ∧
    (handleStripeWebhook false ev s).ops = [] ∧
    ((handleStripeWebhook false ev s).resp).status = 400 :=
  ⟨rfl, rfl, rfl, rfl⟩

/-! ## C10 — read endpoints are pure queries -/

theorem fetchSessionData_pure (retrieve : String → Option Session)
    (q : String) (s : Store) : (fetchSessionData retrieve q s).store = s := by
  unfold fetchSessionData
  repeat' split
  all_goals rfl

theorem checkSubscriptionStatus_pure (w : StripeWorld) (email : String)
    (s : Store) : (checkSubscriptionStatus w email s).store = s := by
  unfold checkSubscriptionStatus
  repeat' split
  all_goals rfl

theorem checkUserStatus_pure (email : String) (s : Store) :
    (checkUserStatus email s).store = s := by
  unfold checkUserStatus
  repeat' split
  all_goals rfl

/-- Claim C10: the query operations `fetchSessionData`,
`checkSubscriptionStatus`, `checkUserStatus` and `getUser` never mutate
the user store: on every input — success or error branch — the store after
the call equals the store before it. -/
theorem read_endpoints_pure (retrieve : String → Option Session)
    (w : StripeWorld) (q email email2 cid : String) (s : Store) :
    (fetchSessionData retrieve q s).store = s ∧
    (checkSubscriptionStatus w email s).store = s ∧
    (checkUserStatus email2 s).store = s ∧
    (getUser cid s).store = s :=
  ⟨fetchSessionData_pure retrieve q s, checkSubscriptionStatus_pure w email s,
   checkUserStatus_pure email2 s, rfl⟩

/-! ## C6 — webhook acceptance on authenticated delivery -/

/-- Claim C6 is false on the code: a webhook that passes signature
verification, of the recognized `checkout.session.completed` kind,
carrying a customer email that matches no user record, is answered with
HTTP 400 (`Webhook Error`), not 200 — the `prisma.user.update` throws and
the shared catch block rejects the delivery. -/
theorem webhook_unknown_user_rejected :
    (handleStripeWebhook true
        ⟨"checkout.session.completed", some "ada@example.com"⟩ []).resp =
      .webhookError ∧
    ((handleStripeWebhook true
        ⟨"checkout.session.completed", some "ada@example.com"⟩ []).resp).status =
      400 :=
  ⟨rfl, rfl⟩

/-- Claim C6 (amended): with a verified signature the handler returns 200
`{received:true}` with no store mutation for events of unrecognized kind
and for recognized events missing the customer email; a recognized event
whose email matches an existing record returns 200 and marks it active;
but a recognized event whose email matches no record is answered 400 with
no store mutation. -/
theorem webhook_authenticated_responses (ev : WebhookEvent) (s : Store) :
    (ev.type ≠ "checkout.session.completed" →
      handleStripeWebhook true ev s = ⟨.received, s, [], []⟩) ∧
    (ev.customer_email = none →
      handleStripeWebhook true ev s = ⟨.received, s, [], []⟩) ∧
    (∀ e, ev.type = "checkout.session.completed" → ev.customer_email = some e →
      (findByEmail s e = none →
        handleStripeWebhook true ev s =
          ⟨.webhookError, s, [], ["Webhook error:"]⟩) ∧
      ((findByEmail s e).isSome →
        handleStripeWebhook true ev s =
          ⟨.received,
            updateWhereEmail s e
              (fun r => { r with subscriptionStatus := "active" }),
            [.writeUpdateByEmail e],
            ["User subscription status updated to active."]⟩)) := by
  refine ⟨fun h => ?_, fun h => ?_, fun e ht he => ⟨fun hf => ?_, fun hf => ?_⟩⟩
  · simp [handleStripeWebhook, h]
  · by_cases ht : ev.type = "checkout.session.completed" <;>
      simp [handleStripeWebhook, h, ht]
  · simp [handleStripeWebhook, ht, he, hf]
  · obtain ⟨u, hu⟩ := Option.isSome_iff_exists.mp hf
    simp [handleStripeWebhook, ht, he, hu, updateWhereEmail]

/-- Witness for the amended C6 theorem at a concrete input: an
authenticated delivery of an unrecognized event kind is acknowledged with
200 and mutates nothing. -/
theorem webhook_authenticated_responses_witness :
    handleStripeWebhook true ⟨"invoice.paid", some "a@b.c"⟩ [] =
      ⟨.received, [], [], []⟩ :=
  (webhook_authenticated_responses ⟨"invoice.paid", some "a@b.c"⟩ []).1
    (by decide)

/-! ## C7 — identity-resolver policy -/

/-- Claim C7 is false on the code: on a paid session whose
`client_reference_id` is absent while the customer email IS available, the
synchronous handler fails with 400 (`Cognito ID not found in session.`)
instead of falling back to the email. -/
theorem resolver_no_email_fallback :
    updateAfterPayment (fun _ => some ⟨"paid", none, some "ada@example.com"⟩)
        ⟨"sess_1", "Ada", "Lovelace", none⟩ [] =
      ⟨.cognitoIdNotFound, [], [], []⟩ ∧
    (Session.mk "paid" none (some "ada@example.com")).customer_email.isSome =
      true :=
  ⟨rfl, rfl⟩

/-- Claim C7 (amended): there is no preference-then-fallback resolver:
each path consults exactly one correlator. The synchronous path fails with
400 when `client_reference_id` is absent even if a customer email is
present, and the email path fails with 400 when the customer email is
absent even if a reference id is present; the store is unchanged in both
cases. -/
theorem correlator_no_fallback (retrieve : String → Option Session)
    (b : UpdateBody) (b2 : UpdateBody2) (s : Store) (sess sess2 : Session)
    (hb : ¬(b.sessionId = "" ∨ b.firstName = "" ∨ b.lastName = ""))
    (hret : retrieve b.sessionId = some sess)
    (hpaid : sess.payment_status = "paid")
    (href : sess.client_reference_id = none)
    (hb2 : ¬(b2.sessionId = "" ∨ b2.firstName = "" ∨ b2.lastName = "" ∨
      b2.username = ""))
    (hret2 : retrieve b2.sessionId = some sess2)
    (hemail2 : sess2.customer_email = none) :
    updateAfterPayment retrieve b s = ⟨.cognitoIdNotFound, s, [], []⟩ ∧
    updateUserAfterPayment retrieve b2 s = ⟨.emailNotFound, s, [], []⟩ := by
  constructor
  · simp [updateAfterPayment, hb, hret, hpaid, href]
  · simp [updateUserAfterPayment, hb2, hret2, hemail2]

/-- Witness for the amended C7 theorem at concrete inputs. -/
theorem correlator_no_fallback_witness :
    updateAfterPayment
        (fun sid => if sid = "s1" then some ⟨"paid", none, some "e@x.com"⟩
          else some ⟨"paid", some "u42", none⟩)
        ⟨"s1", "Ada", "Lovelace", none⟩ [] =
      ⟨.cognitoIdNotFound, [], [], []⟩ ∧
    updateUserAfterPayment
        (fun sid => if sid = "s1" then some ⟨"paid", none, some "e@x.com"⟩
          else some ⟨"paid", some "u42", none⟩)
        ⟨"s2", "Ada", "Lovelace", none, "ada"⟩ [] =
      ⟨.emailNotFound, [], [], []⟩ :=
  correlator_no_fallback
    (fun sid => if sid = "s1" then some ⟨"paid", none, some "e@x.com"⟩
      else some ⟨"paid", some "u42", none⟩)
    ⟨"s1", "Ada", "Lovelace", none⟩ ⟨"s2", "Ada", "Lovelace", none, "ada"⟩ []
    ⟨"paid", none, some "e@x.com"⟩ ⟨"paid", some "u42", none⟩
    (by decide) (by decide) rfl rfl (by decide) (by decide) rfl

/-! ## C8 — unpaid-session rejection -/

/-- Claim C8 is false on the code: `updateUserAfterPayment` performs no
payment-status check at all — given an UNPAID session carrying a customer
email it reconciles anyway, creating an `active` user and returning 200. -/
theorem updateUserAfterPayment_unpaid_reconciles :
    updateUserAfterPayment
        (fun _ => some ⟨"unpaid", some "u42", some "ada@example.com"⟩)
        ⟨"sess_2", "Ada", "Lovelace", none, "ada"⟩ [] =
      ⟨.okUser ⟨none, "ada@example.com", "ada", "Ada", "Lovelace", none, "active"⟩,
        [⟨none, "ada@example.com", "ada", "Ada", "Lovelace", none, "active"⟩],
        [.readByEmail "ada@example.com",
          .writeCreate
            ⟨none, "ada@example.com", "ada", "Ada", "Lovelace", none, "active"⟩],
        []⟩ :=
  rfl

/-- Claim C8 (amended): only the `updateAfterPayment` handler rejects a
session that verifies but is not `paid`: it returns 400
(`Invalid or unpaid session ID.`) and issues no store operation, so
reconciliation is never invoked on that path. -/
theorem unpaid_session_rejected_sync_path (retrieve : String → Option Session)
    (b : UpdateBody) (s : Store) (sess : Session)
    (hb : ¬(b.sessionId = "" ∨ b.firstName = "" ∨ b.lastName = ""))
    (hret : retrieve b.sessionId = some sess)
    (hunpaid : sess.payment_status ≠ "paid") :
    updateAfterPayment retrieve b s = ⟨.invalidOrUnpaid, s, [], []⟩ ∧
    ((updateAfterPayment retrieve b s).resp).status = 400 ∧
    (updateAfterPayment retrieve b s).ops = [] := by
  have h : updateAfterPayment retrieve b s = ⟨.invalidOrUnpaid, s, [], []⟩ := by
    simp [updateAfterPayment, hb, hret, hunpaid]
  exact ⟨h, by rw [h]; rfl, by rw [h]⟩

/-- Witness for the amended C8 theorem at a concrete input. -/
theorem unpaid_session_rejected_sync_path_witness :
    updateAfterPayment (fun _ => some ⟨"unpaid", some "u42", none⟩)
        ⟨"s1", "Ada", "Lovelace", none⟩ [] =
      ⟨.invalidOrUnpaid, [], [], []⟩ :=
  (unpaid_session_rejected_sync_path (fun _ => some ⟨"unpaid", some "u42", none⟩)
    ⟨"s1", "Ada", "Lovelace", none⟩ [] ⟨"unpaid", some "u42", none⟩
    (by decide) rfl (by decide)).1

/-! ## C9 — degraded identity creation -/

/-- Claim C9 is false on the code: the reference-id path synthesizes the
display handle (`user_u42`) and placeholder email (`u42@example.com`) on
record creation, and nothing flags the degraded case — the handler's log
output is empty. -/
theorem degraded_creation_unflagged :
    (updateAfterPayment (fun _ => some ⟨"paid", some "u42", none⟩)
        ⟨"sess_1", "Ada", "Lovelace", none⟩ []).store =
      [⟨some "u42", "u42@example.com", "user_u42", "Ada", "Lovelace", none,
        "active"⟩] ∧
    (updateAfterPayment (fun _ => some ⟨"paid", some "u42", none⟩)
        ⟨"sess_1", "Ada", "Lovelace", none⟩ []).log = [] :=
  ⟨rfl, rfl⟩

/-- Claim C9 (amended): every record created by the reference-id path has
a synthesized username `user_${cognitoId}` and a placeholder email
`${cognitoId}@example.com` — the request body of this path carries no
username or email field, so the caller can never supply them — and no log
or metric flags the synthesis: the creation path emits no log line. -/
theorem creation_synthesizes_silently (retrieve : String → Option Session)
    (b : UpdateBody) (s : Store) (sess : Session) (c : String) (t : Store)
    (hb : ¬(b.sessionId = "" ∨ b.firstName = "" ∨ b.lastName = ""))
    (hret : retrieve b.sessionId = some sess)
    (hpaid : sess.payment_status = "paid")
    (href : sess.client_reference_id = some c) (hc : c ≠ "")
    (hfind : findByCognito s c = none)
    (hdb : dbCreate s (newUserFromPayment c b) = some t) :
    updateAfterPayment retrieve b s =
      ⟨.okUser (newUserFromPayment c b), t,
        [.readByCognito c, .writeCreate (newUserFromPayment c b)], []⟩ ∧
    (newUserFromPayment c b).username = "user_" ++ c ∧
    (newUserFromPayment c b).email = c ++ "@example.com" ∧
    (updateAfterPayment retrieve b s).log = [] := by
  have h : updateAfterPayment retrieve b s =
      ⟨.okUser (newUserFromPayment c b), t,
        [.readByCognito c, .writeCreate (newUserFromPayment c b)], []⟩ := by
    simp [updateAfterPayment, hb, hret, hpaid, href, hc, hfind, hdb]
  exact ⟨h, rfl, rfl, by rw [h]⟩

/-- Witness for the amended C9 theorem at a concrete input. -/
theorem creation_synthesizes_silently_witness :
    updateAfterPayment (fun _ => some ⟨"paid", some "u7", none⟩)
        ⟨"s1", "Grace", "Hopper", none⟩ [] =
      ⟨.okUser (newUserFromPayment "u7" ⟨"s1", "Grace", "Hopper", none⟩),
        [newUserFromPayment "u7" ⟨"s1", "Grace", "Hopper", none⟩],
        [.readByCognito "u7",
          .writeCreate (newUserFromPayment "u7" ⟨"s1", "Grace", "Hopper", none⟩)],
        []⟩ :=
  (creation_synthesizes_silently (fun _ => some ⟨"paid", some "u7", none⟩)
    ⟨"s1", "Grace", "Hopper", none⟩ [] ⟨"paid", some "u7", none⟩ "u7"
    [newUserFromPayment "u7" ⟨"s1", "Grace", "Hopper", none⟩]
    (by decide) rfl rfl rfl (by decide) rfl rfl).1

/-! ## C2 — no duplicate identities via secondary lookup -/

/-- Claim C2 is false on the code: the reference-id path issues no
secondary email lookup (its trace contains only a cognito-id read and a
create, although the session carried the email), and replaying the same
person through the email path afterwards creates a second record: the
store ends with two records, not one. -/
theorem dual_key_creates_duplicate :
    ((updateAfterPayment
        (fun _ => some ⟨"paid", some "u42", some "ada@example.com"⟩)
        ⟨"sess_1", "Ada", "Lovelace", none⟩ []).ops.all
      (fun op => !op.isEmailRead)) = true ∧
    (updateUserAfterPayment
        (fun _ => some ⟨"paid", none, some "ada@example.com"⟩)
        ⟨"sess_2", "Ada", "Lovelace", none, "ada"⟩
        (updateAfterPayment
          (fun _ => some ⟨"paid", some "u42", some "ada@example.com"⟩)
          ⟨"sess_1", "Ada", "Lovelace", none⟩ []).store).store.length = 2 :=
  ⟨rfl, rfl⟩

/-- Claim C2 (amended): the reference-id path performs no secondary lookup
of any kind by email — on every input its store-operation trace contains
no email read — so reconciling first via the reference-id key and then via
the email key for the same underlying person yields two records. -/
theorem no_secondary_email_lookup (retrieve : String → Option Session)
    (b : UpdateBody) (s : Store) :
    ((updateAfterPayment retrieve b s).ops.all (fun op => !op.isEmailRead)) =
      true ∧
    (updateUserAfterPayment
        (fun _ => some ⟨"paid", none, some "ada@example.com"⟩)
        ⟨"sess_2", "Ada", "Lovelace", none, "ada"⟩
        (updateAfterPayment
          (fun _ => some ⟨"paid", some "u42", some "ada@example.com"⟩)
          ⟨"sess_1", "Ada", "Lovelace", none⟩ []).store).store.length = 2 := by
  constructor
  · unfold updateAfterPayment
    repeat' split
    all_goals rfl
  · rfl

/-! ## C3 — idempotence of reconciliation -/

/-- The per-row rewrite `updateAfterPayment` applies to the rows keyed by
the session's reference id. -/
def payRow (b : UpdateBody) (c : String) (r : UserRecord) : UserRecord :=
  if r.cognitoId = some c then applyPaymentUpdate b r else r

/-- The per-row rewrite the webhook applies to the rows keyed by the
event's customer email. -/
def webRow (e : String) (r : UserRecord) : UserRecord :=
  if r.email = e then { r with subscriptionStatus := "active" } else r

theorem payRow_cognito (b : UpdateBody) (c : String) (r : UserRecord) :
    (payRow b c r).cognitoId = r.cognitoId := by
  unfold payRow; split <;> rfl

theorem webRow_email (e : String) (r : UserRecord) :
    (webRow e r).email = r.email := by
  unfold webRow; split <;> rfl

theorem applyPaymentUpdate_idem (b : UpdateBody) (r : UserRecord) :
    applyPaymentUpdate b (applyPaymentUpdate b r) = applyPaymentUpdate b r := by
  obtain ⟨sid, fn, ln, ppu⟩ := b
  cases ppu <;> rfl

theorem applyPaymentUpdate_newUser (b : UpdateBody) (c : String) :
    applyPaymentUpdate b (newUserFromPayment c b) = newUserFromPayment c b := by
  obtain ⟨sid, fn, ln, ppu⟩ := b
  cases ppu <;> rfl

theorem payRow_idem (b : UpdateBody) (c : String) (r : UserRecord) :
    payRow b c (payRow b c r) = payRow b c r := by
  by_cases h : r.cognitoId = some c
  · have h2 : (applyPaymentUpdate b r).cognitoId = some c := h
    simp only [payRow, if_pos h, if_pos h2, applyPaymentUpdate_idem]
  · simp only [payRow, if_neg h]

theorem webRow_idem (e : String) (r : UserRecord) :
    webRow e (webRow e r) = webRow e r := by
  by_cases h : r.email = e
  · simp only [webRow, if_pos h]
  · simp only [webRow, if_neg h]

/-- `find?` commutes with a row rewrite that does not change the field the
predicate looks at. -/
theorem find?_map_pres (g : UserRecord → UserRecord) (p : UserRecord → Bool)
    (hg : ∀ r, p (g r) = p r) (s : Store) :
    (s.map g).find? p = (s.find? p).map g := by
  induction s with
  | nil => rfl
  | cons r t ih =>
    cases hp : p r with
    | true =>
      rw [List.map_cons, List.find?_cons_of_pos _ (by rw [hg r]; exact hp),
        List.find?_cons_of_pos _ hp]
      rfl
    | false =>
      rw [List.map_cons, List.find?_cons_of_neg _ (by simp [hg r, hp]),
        List.find?_cons_of_neg _ (by simp [hp]), ih]

/-- `filter` length is preserved by a row rewrite that does not change the
field the predicate looks at. -/
theorem filter_length_map_pres (g : UserRecord → UserRecord)
    (p : UserRecord → Bool) (hg : ∀ r, p (g r) = p r) (s : Store) :
    ((s.map g).filter p).length = (s.filter p).length := by
  induction s with
  | nil => rfl
  | cons r t ih => cases hp : p r <;> simp [List.filter_cons, hg r, hp, ih]

theorem findByCognito_map_payRow (b : UpdateBody) (c : String) (s : Store) :
    findByCognito (s.map (payRow b c)) c =
      (findByCognito s c).map (payRow b c) :=
  find?_map_pres (payRow b c) _ (fun r => by simp [payRow_cognito]) s

theorem findByEmail_map_webRow (e : String) (s : Store) :
    findByEmail (s.map (webRow e)) e = (findByEmail s e).map (webRow e) :=
  find?_map_pres (webRow e) _ (fun r => by simp [webRow_email]) s

/-- Redelivering the same authenticated webhook event leaves the store
where the first delivery put it. -/
theorem handleStripeWebhook_idem (ev : WebhookEvent) (t : Store) :
    (handleStripeWebhook true ev
        (handleStripeWebhook true ev t).store).store =
      (handleStripeWebhook true ev t).store := by
  by_cases ht : ev.type = "checkout.session.completed"
  · cases he : ev.customer_email with
    | none =>
      have h1 : (handleStripeWebhook true ev t).store = t := by
        simp [handleStripeWebhook, ht, he]
      rw [h1]; exact h1
    | some e =>
      cases hf : findByEmail t e with
      | none =>
        have h1 : (handleStripeWebhook true ev t).store = t := by
          simp [handleStripeWebhook, ht, he, hf]
        rw [h1]; exact h1
      | some u =>
        have h1 : (handleStripeWebhook true ev t).store = t.map (webRow e) := by
          simp [handleStripeWebhook, ht, he, hf, updateWhereEmail, webRow]
        have h2 : findByEmail (t.map (webRow e)) e = some (webRow e u) := by
          rw [findByEmail_map_webRow, hf]; rfl
        have h3 : (handleStripeWebhook true ev (t.map (webRow e))).store =
            (t.map (webRow e)).map (webRow e) := by
          simp [handleStripeWebhook, ht, he, h2, updateWhereEmail, webRow]
        rw [h1, h3, List.map_map]
        exact List.map_congr_left (fun r _ => webRow_idem e r)
  · have h1 : (handleStripeWebhook true ev t).store = t := by
      simp [handleStripeWebhook, ht]
    rw [h1]; exact h1

/-- Claim C3: reconciliation is idempotent. Running `updateAfterPayment`
twice with identical inputs leaves the store exactly where one run put it;
when the starting store holds at most one record for the session's
reference id (and, if none, no record squatting on the placeholder email),
the store after reconciliation holds exactly one record for that id; and
redelivering the same authenticated webhook event is likewise idempotent. -/
theorem reconcile_idempotent (retrieve : String → Option Session)
    (b : UpdateBody) (s : Store) (sess : Session) (c : String)
    (ev : WebhookEvent) (t : Store)
    (hb : ¬(b.sessionId = "" ∨ b.firstName = "" ∨ b.lastName = ""))
    (hret : retrieve b.sessionId = some sess)
    (hpaid : sess.payment_status = "paid")
    (href : sess.client_reference_id = some c) (hc : c ≠ "") :
    (updateAfterPayment retrieve b
        (updateAfterPayment retrieve b s).store).store =
      (updateAfterPayment retrieve b s).store ∧
    (countByCognito s c ≤ 1 →
      (findByCognito s c = none → ∀ r ∈ s, r.email ≠ c ++ "@example.com") →
      countByCognito (updateAfterPayment retrieve b s).store c = 1) ∧
    (handleStripeWebhook true ev
        (handleStripeWebhook true ev t).store).store =
      (handleStripeWebhook true ev t).store := by
  refine ⟨?_, ?_, handleStripeWebhook_idem ev t⟩
  · cases hfind : findByCognito s c with
    | some u =>
      have h1 : (updateAfterPayment retrieve b s).store = s.map (payRow b c) := by
        simp [updateAfterPayment, hb, hret, hpaid, href, hc, hfind,
          updateWhereCognito, payRow]
      have h2 : findByCognito (s.map (payRow b c)) c = some (payRow b c u) := by
        rw [findByCognito_map_payRow, hfind]; rfl
      have h3 : (updateAfterPayment retrieve b (s.map (payRow b c))).store =
          (s.map (payRow b c)).map (payRow b c) := by
        simp [updateAfterPayment, hb, hret, hpaid, href, hc, h2,
          updateWhereCognito, payRow]
      rw [h1, h3, List.map_map]
      exact List.map_congr_left (fun r _ => payRow_idem b c r)
    | none =>
      cases hdb : dbCreate s (newUserFromPayment c b) with
      | some s2 =>
        have hs2 : s2 = s ++ [newUserFromPayment c b] := dbCreate_eq_append hdb
        have h1 : (updateAfterPayment retrieve b s).store =
            s ++ [newUserFromPayment c b] := by
          simp [updateAfterPayment, hb, hret, hpaid, href, hc, hfind, hdb, hs2]
        have hnomatch : ∀ r ∈ s, ¬(decide (r.cognitoId = some c) = true) :=
          List.find?_eq_none.mp hfind
        have h2 : findByCognito (s ++ [newUserFromPayment c b]) c =
            some (newUserFromPayment c b) := by
          unfold findByCognito
          rw [List.find?_append, List.find?_eq_none.mpr hnomatch, Option.none_or,
            List.find?_cons_of_pos _ (by simp [newUserFromPayment])]
        have h3 : (updateAfterPayment retrieve b
            (s ++ [newUserFromPayment c b])).store =
            (s ++ [newUserFromPayment c b]).map (payRow b c) := by
          simp [updateAfterPayment, hb, hret, hpaid, href, hc, h2,
            updateWhereCognito, payRow]
        have h4 : (s ++ [newUserFromPayment c b]).map (payRow b c) =
            s ++ [newUserFromPayment c b] := by
          rw [List.map_append]
          congr 1
          · refine (List.map_congr_left (fun r hr => ?_)).trans (List.map_id s)
            have := hnomatch r hr
            simp only [decide_eq_true_eq] at this
            simp only [payRow, if_neg this, id]
          · have hm : (newUserFromPayment c b).cognitoId = some c := rfl
            simp only [List.map_cons, List.map_nil, payRow, if_pos hm,
              applyPaymentUpdate_newUser]
        rw [h1, h3, h4]
      | none =>
        have h1 : (updateAfterPayment retrieve b s).store = s := by
          simp [updateAfterPayment, hb, hret, hpaid, href, hc, hfind, hdb]
        rw [h1]; exact h1
  · intro hle hemail
    cases hfind : findByCognito s c with
    | some u =>
      have h1 : (updateAfterPayment retrieve b s).store = s.map (payRow b c) := by
        simp [updateAfterPayment, hb, hret, hpaid, href, hc, hfind,
          updateWhereCognito, payRow]
      have hpres : countByCognito (s.map (payRow b c)) c = countByCognito s c :=
        filter_length_map_pres (payRow b c) _
          (fun r => by simp [payRow_cognito]) s
      have hmem : u ∈ s := List.mem_of_find?_eq_some hfind
      have hpu := List.find?_some hfind
      have hge : 1 ≤ countByCognito s c := by
        unfold countByCognito
        exact List.length_pos_of_mem (List.mem_filter.mpr ⟨hmem, hpu⟩)
      rw [h1, hpres]
      exact Nat.le_antisymm hle hge
    | none =>
      have hnomatch : ∀ r ∈ s, ¬(decide (r.cognitoId = some c) = true) :=
        List.find?_eq_none.mp hfind
      have hany : (s.any (fun q =>
          ((newUserFromPayment c b).cognitoId.isSome &&
            decide (q.cognitoId = (newUserFromPayment c b).cognitoId)) ||
          decide (q.email = (newUserFromPayment c b).email))) = false := by
        rw [List.any_eq_false]
        intro q hq
        simp only [Bool.or_eq_true, Bool.and_eq_true, decide_eq_true_eq,
          not_or, not_and]
        constructor
        · intro _ hcog
          exact (hnomatch q hq) (by simp [hcog, newUserFromPayment])
        · exact hemail hfind q hq
      have hdb : dbCreate s (newUserFromPayment c b) =
          some (s ++ [newUserFromPayment c b]) := by
        simp [dbCreate, hany]
      have h1 : (updateAfterPayment retrieve b s).store =
          s ++ [newUserFromPayment c b] := by
        simp [updateAfterPayment, hb, hret, hpaid, href, hc, hfind, hdb]
      rw [h1]
      unfold countByCognito
      rw [List.filter_append, List.length_append]
      have hz : (s.filter (fun r => decide (r.cognitoId = some c))).length = 0 := by
        rw [List.filter_eq_nil_iff.mpr hnomatch]
        rfl
      rw [hz]
      simp [newUserFromPayment]

/-- Witness for the C3 theorem at a concrete input: a paid session with
reference id `u42`, starting from the empty store; the count hypotheses
hold trivially and both runs land on the same single-record store. -/
theorem reconcile_idempotent_witness :
    (updateAfterPayment (fun _ => some ⟨"paid", some "u42", none⟩)
        ⟨"s1", "Ada", "Lovelace", none⟩
        (updateAfterPayment (fun _ => some ⟨"paid", some "u42", none⟩)
          ⟨"s1", "Ada", "Lovelace", none⟩ []).store).store =
      (updateAfterPayment (fun _ => some ⟨"paid", some "u42", none⟩)
        ⟨"s1", "Ada", "Lovelace", none⟩ []).store ∧
    countByCognito
      (updateAfterPayment (fun _ => some ⟨"paid", some "u42", none⟩)
        ⟨"s1", "Ada", "Lovelace", none⟩ []).store "u42" = 1 := by
  have h := reconcile_idempotent (fun _ => some ⟨"paid", some "u42", none⟩)
    ⟨"s1", "Ada", "Lovelace", none⟩ [] ⟨"paid", some "u42", none⟩ "u42"
    ⟨"checkout.session.completed", none⟩ []
    (by decide) rfl rfl rfl (by decide)
  exact ⟨h.1, h.2.1 (by decide) (by intro hf r hr; cases hr)⟩

/-! ## C5 — atomic conditional upsert -/

/-- The claimed shape of the create-or-update: one single store operation,
and that operation a write (a conditional upsert). -/
def SingleAtomicWrite (ops : List StoreOp) : Prop :=
  ∃ w, ops = [w] ∧ w.isWrite = true

/-- Claim C5 is false on the code: the create-or-update is not a single
atomic conditional write on the store. A concrete reconciliation issues a
`findUnique` read followed by a separate `create` write — a read-then-write
pair of two store operations. -/
theorem upsert_not_single_write :
    (updateAfterPayment (fun _ => some ⟨"paid", some "u42", none⟩)
        ⟨"s1", "Ada", "Lovelace", none⟩ []).ops =
      [.readByCognito "u42",
        .writeCreate (newUserFromPayment "u42" ⟨"s1", "Ada", "Lovelace", none⟩)] ∧
    ¬ SingleAtomicWrite
      (updateAfterPayment (fun _ => some ⟨"paid", some "u42", none⟩)
        ⟨"s1", "Ada", "Lovelace", none⟩ []).ops := by
  refine ⟨rfl, ?_⟩
  rintro ⟨w, hw, -⟩
  rw [show (updateAfterPayment (fun _ => some ⟨"paid", some "u42", none⟩)
      ⟨"s1", "Ada", "Lovelace", none⟩ []).ops =
    [.readByCognito "u42",
      .writeCreate (newUserFromPayment "u42" ⟨"s1", "Ada", "Lovelace", none⟩)]
    from rfl] at hw
  simp at hw

/-- Control state of one in-flight reconciliation: before its `findUnique`
read, after it (carrying the result), finished successfully, or finished
with a store-level error (surfaced as HTTP 500). -/
inductive RacerState where
  | start
  | decided (found : Option UserRecord)
  | doneOk
  | doneErr
deriving Repr, DecidableEq

/-- Two concurrent reconciliations (A and B) sharing the store. -/
structure RaceConfig where
  a : RacerState
  b : RacerState
  store : Store
deriving Repr, DecidableEq

/-- One racer's steps, the read and the write being separate transitions:
the `findUnique` read, then — depending on what the read saw — the
`update` write, the `create` write, or the thrown `create` when a
unique-key constraint is violated by a row written between the read and
the write. -/
inductive RacerStep (c : String) (bd : UpdateBody) :
    RacerState → Store → RacerState → Store → Prop where
  | read (s : Store) :
      RacerStep c bd .start s (.decided (findByCognito s c)) s
  | upd (s : Store) (u : UserRecord) :
      RacerStep c bd (.decided (some u)) s .doneOk
        (updateWhereCognito s c (applyPaymentUpdate bd))
  | createOk (s s2 : Store)
      (h : dbCreate s (newUserFromPayment c bd) = some s2) :
      RacerStep c bd (.decided none) s .doneOk s2
  | createErr (s : Store)
      (h : dbCreate s (newUserFromPayment c bd) = none) :
      RacerStep c bd (.decided none) s .doneErr s

/-- Interleaving semantics: either racer takes its next step. -/
inductive RaceStep (c : String) (bd : UpdateBody) :
    RaceConfig → RaceConfig → Prop where
  | left {sa sa2 : RacerState} {st st2 : Store} {sb : RacerState}
      (h : RacerStep c bd sa st sa2 st2) :
      RaceStep c bd ⟨sa, sb, st⟩ ⟨sa2, sb, st2⟩
  | right {sb sb2 : RacerState} {st st2 : Store} {sa : RacerState}
      (h : RacerStep c bd sb st sb2 st2) :
      RaceStep c bd ⟨sa, sb, st⟩ ⟨sa, sb2, st2⟩

/-- Claim C5 (amended): the create-or-update is a `findUnique` read
followed by a separate conditional write — its trace always begins with
the read and is never a single atomic write — and consequently two
reconciliations for the same key can interleave read/read/write/write so
that one finishes while the other's `create` throws on the unique-key
constraint (surfaced as HTTP 500) instead of updating the record an atomic
conditional upsert would have updated. -/
theorem upsert_read_then_write (retrieve : String → Option Session)
    (b : UpdateBody) (s : Store) (sess : Session) (c : String)
    (hb : ¬(b.sessionId = "" ∨ b.firstName = "" ∨ b.lastName = ""))
    (hret : retrieve b.sessionId = some sess)
    (hpaid : sess.payment_status = "paid")
    (href : sess.client_reference_id = some c) (hc : c ≠ "") :
    ((updateAfterPayment retrieve b s).ops.head? =
        some (.readByCognito c) ∧
      ¬ SingleAtomicWrite (updateAfterPayment retrieve b s).ops) ∧
    ∃ final : RaceConfig,
      Relation.ReflTransGen
        (RaceStep "u42" ⟨"s1", "Ada", "Lovelace", none⟩)
        ⟨.start, .start, []⟩ final ∧
      final.a = .doneOk ∧ final.b = .doneErr ∧
      countByCognito final.store "u42" = 1 := by
  constructor
  · have hops : (updateAfterPayment retrieve b s).ops =
        [.readByCognito c, .writeUpdateByCognito c] ∨
        (updateAfterPayment retrieve b s).ops =
          [.readByCognito c, .writeCreate (newUserFromPayment c b)] ∨
        (updateAfterPayment retrieve b s).ops = [.readByCognito c] := by
      cases hfind : findByCognito s c with
      | some u =>
        left
        simp [updateAfterPayment, hb, hret, hpaid, href, hc, hfind]
      | none =>
        cases hdb : dbCreate s (newUserFromPayment c b) with
        | some s2 =>
          right; left
          simp [updateAfterPayment, hb, hret, hpaid, href, hc, hfind, hdb]
        | none =>
          right; right
          simp [updateAfterPayment, hb, hret, hpaid, href, hc, hfind, hdb]
    rcases hops with h | h | h
    · rw [h]
      refine ⟨rfl, ?_⟩
      rintro ⟨w, hw, -⟩
      simp at hw
    · rw [h]
      refine ⟨rfl, ?_⟩
      rintro ⟨w, hw, -⟩
      simp at hw
    · rw [h]
      refine ⟨rfl, ?_⟩
      rintro ⟨w, hw, hww⟩
      rw [List.cons.injEq] at hw
      rw [← hw.1] at hww
      simp [StoreOp.isWrite] at hww
  · refine ⟨⟨.doneOk, .doneErr,
      [] ++ [newUserFromPayment "u42" ⟨"s1", "Ada", "Lovelace", none⟩]⟩,
      ?_, rfl, rfl, by decide⟩
    have h1 : Relation.ReflTransGen
        (RaceStep "u42" ⟨"s1", "Ada", "Lovelace", none⟩)
        ⟨.start, .start, []⟩ ⟨.decided none, .start, []⟩ :=
      Relation.ReflTransGen.single (RaceStep.left (RacerStep.read []))
    have h2 : Relation.ReflTransGen
        (RaceStep "u42" ⟨"s1", "Ada", "Lovelace", none⟩)
        ⟨.start, .start, []⟩ ⟨.decided none, .decided none, []⟩ :=
      h1.tail (RaceStep.right (RacerStep.read []))
    have h3 : Relation.ReflTransGen
        (RaceStep "u42" ⟨"s1", "Ada", "Lovelace", none⟩)
        ⟨.start, .start, []⟩ ⟨.doneOk, .decided none,
          [] ++ [newUserFromPayment "u42" ⟨"s1", "Ada", "Lovelace", none⟩]⟩ :=
      h2.tail (RaceStep.left (RacerStep.createOk [] _ rfl))
    exact h3.tail (RaceStep.right (RacerStep.createErr _ (by decide)))

/-- Witness for the amended C5 theorem at a concrete input: the trace of
a concrete reconciliation starts with the cognito-id read and is not a
single atomic write. -/
theorem upsert_read_then_write_witness :
    (updateAfterPayment (fun _ => some ⟨"paid", some "u7", none⟩)
        ⟨"s1", "Grace", "Hopper", none⟩ []).ops.head? =
      some (.readByCognito "u7") ∧
    ¬ SingleAtomicWrite
      (updateAfterPayment (fun _ => some ⟨"paid", some "u7", none⟩)
        ⟨"s1", "Grace", "Hopper", none⟩ []).ops :=
  (upsert_read_then_write (fun _ => some ⟨"paid", some "u7", none⟩)
    ⟨"s1", "Grace", "Hopper", none⟩ [] ⟨"paid", some "u7", none⟩ "u7"
    (by decide) rfl rfl rfl (by decide)).1

end MyPlatt
